import Mathlib

/-!
Verification of the grading-reconciliation core of the AI-Professor repository:
the rubric normalizer (`normalizeRubric` in `frontend/lib/rubric/ensureRubricIndex.ts`),
the prompt builder (`buildGradingPrompt` in `frontend/lib/grading/buildGradingPrompt.ts`)
and the score reconciler (`safePercent`, `parseScore`, `needsReview`,
`getSubmissionScore` in the student grading report component).

JavaScript numbers are modelled as exact rationals (`JNum`, a gcd-normalized
`Int`-numerator / `Nat`-denominator pair); `NaN` never arises inside the
modelled code because every numeric coercion in the source immediately
replaces a non-numeric value by `0` (`Number(x) || 0`), and the sole
non-finite guard in the source (`Number.isFinite`) is unreachable over exact
rationals.  Absent or `null` JavaScript values are modelled with `Option`.
-/

/-- Exact rational model of a JavaScript number: numerator and positive
denominator, kept gcd-normalized by the smart constructor `JNum.mk'`. -/
structure JNum where
  num : Int
  den : Nat
deriving DecidableEq, Repr

/-- Normalizing constructor: divides out the gcd. A zero denominator (which
the modelled code never produces, since every division in the source is
guarded by a zero test) collapses to the junk value `0/1`. -/
def JNum.mk' (n : Int) (d : Nat) : JNum :=
  if d = 0 then ⟨0, 1⟩
  else
    let g := Nat.gcd n.natAbs d
    ⟨n / (g : Int), d / g⟩

/-- Embed an integer. -/
def JNum.ofInt (n : Int) : JNum := ⟨n, 1⟩

/-- Embed a natural number. -/
def JNum.ofNat (n : Nat) : JNum := ⟨(n : Int), 1⟩

instance (n : Nat) : OfNat JNum n := ⟨JNum.ofNat n⟩

/-- Addition of modelled JavaScript numbers. -/
def JNum.add (a b : JNum) : JNum :=
  JNum.mk' (a.num * (b.den : Int) + b.num * (a.den : Int)) (a.den * b.den)

/-- Subtraction of modelled JavaScript numbers. -/
def JNum.sub (a b : JNum) : JNum :=
  JNum.mk' (a.num * (b.den : Int) - b.num * (a.den : Int)) (a.den * b.den)

/-- Multiplication of modelled JavaScript numbers. -/
def JNum.mul (a b : JNum) : JNum :=
  JNum.mk' (a.num * b.num) (a.den * b.den)

/-- Division of modelled JavaScript numbers.  Division by zero yields the
junk value `0/1`; every division in the modelled source is guarded by a
zero test on the denominator, so the junk value is never observed. -/
def JNum.div (a b : JNum) : JNum :=
  if b.num < 0 then JNum.mk' (-(a.num * (b.den : Int))) (a.den * b.num.natAbs)
  else JNum.mk' (a.num * (b.den : Int)) (a.den * b.num.natAbs)

/-- Strict comparison, `a < b`, by cross-multiplication. -/
def JNum.blt (a b : JNum) : Bool := a.num * (b.den : Int) < b.num * (a.den : Int)

/-- Numeric zero test (JavaScript `x === 0`, also number falsiness): true on
any representation of zero, normalized or not. -/
def JNum.isZero (a : JNum) : Bool := a.num == 0

/-- JavaScript `Math.floor`. -/
def JNum.floor (a : JNum) : Int := Int.fdiv a.num (a.den : Int)

/-- JavaScript `Math.round`: round half toward positive infinity,
`Math.round x = Math.floor (x + 1/2)`. -/
def jsRound (a : JNum) : Int := JNum.floor (JNum.add a (JNum.mk' 1 2))

/-- Dynamically typed JavaScript value as it occurs in the score fields the
reconciler reads: a number or a string.  `null`/`undefined` are modelled by
wrapping in `Option` at each use site. -/
inductive JVal where
  | num (n : JNum)
  | str (s : String)
deriving DecidableEq, Repr

/-- Decimal digit test, the character class `[0-9]`. -/
def isDigitChar (c : Char) : Bool := '0' ≤ c && c ≤ '9'

/-- White space as matched by the JavaScript `\s` class (ASCII part). -/
def isSpaceChar (c : Char) : Bool :=
  c = ' ' || c = '\t' || c = '\n' || c = '\r' || c = '\x0b' || c = '\x0c'

/-- Value of a list of decimal digit characters. -/
def digitsToNat (cs : List Char) : Nat :=
  cs.foldl (fun a c => 10 * a + (c.toNat - 48)) 0

/-- Parse an unsigned decimal numeral (`D+`, `D+.`, `D+.D+` or `.D+`),
consuming the whole list; `none` when the list is not such a numeral. -/
def parseDecimalChars (cs : List Char) : Option JNum :=
  let ip := cs.takeWhile isDigitChar
  let rest := cs.drop ip.length
  match rest with
  | [] => if ip = [] then none else some (JNum.ofNat (digitsToNat ip))
  | '.' :: r2 =>
      let fp := r2.takeWhile isDigitChar
      if r2.drop fp.length = [] ∧ (ip ≠ [] ∨ fp ≠ []) then
        some (JNum.mk' ((digitsToNat ip * 10 ^ fp.length + digitsToNat fp : Nat) : Int)
          (10 ^ fp.length))
      else none
  | _ => none

/-- JavaScript `Number(s)` on a string of the modelled shapes: surrounding
white space is trimmed, the empty string is `0`, an optional sign precedes a
decimal numeral; anything else is `NaN`, returned as `none`.  (Exponent and
hex forms do not occur in the modelled data and are out of the model.) -/
def jsStrToNum (s : String) : Option JNum :=
  let cs := (s.data.dropWhile isSpaceChar).reverse.dropWhile isSpaceChar |>.reverse
  match cs with
  | [] => some (JNum.ofInt 0)
  | '+' :: r => parseDecimalChars r
  | '-' :: r => (parseDecimalChars r).map (fun q => JNum.mk' (-q.num) q.den)
  | _ => parseDecimalChars cs

/-- JavaScript `Number(v)` on a number-or-string value; `none` is `NaN`. -/
def jsToNumber (v : JVal) : Option JNum :=
  match v with
  | .num n => some n
  | .str s => jsStrToNum s

/-- Truthiness of a possibly absent number-or-string value: `null`/`undefined`
and `NaN` are falsy, a number is falsy exactly when zero, a string exactly
when empty. -/
def jvalTruthy (v : Option JVal) : Bool :=
  match v with
  | none => false
  | some (.num n) => !n.isZero
  | some (.str s) => s ≠ ""

/-- JavaScript `Number(x) || 0` for `x` a possibly absent number-or-string
value: `NaN` and every representation of zero collapse to literal `0`. -/
def jsCoerceNum (v : JVal) : JNum :=
  match jsToNumber v with
  | none => JNum.ofInt 0
  | some q => if q.isZero then JNum.ofInt 0 else q

/-- JavaScript `x || d` for `x` a possibly absent number (`null`, `undefined`
and `0` fall through to the default). -/
def jsNumOr (v : Option JNum) (d : JNum) : JNum :=
  match v with
  | some w => if w.isZero then d else w
  | none => d

/-- JavaScript `x || d` for `x` a possibly absent string (`null`, `undefined`
and the empty string fall through to the default). -/
def jsStrOr (v : Option String) (d : String) : String :=
  match v with
  | some s => if s = "" then d else s
  | none => d

/-!
Rubric normalizer, from `frontend/lib/rubric/ensureRubricIndex.ts`
(`normalizeRubric`).  Input shapes follow the `Rubric` data model: every
field a caller may omit is an `Option`.
-/

/-- Per-question marking policy as it arrives from the caller: every field
optional (`MarkingPolicy` input shape). -/
structure PolicyIn where
  allowPartialCredit : Option Bool := none
  requiresFinalAnswer : Option Bool := none
  methodWeight : Option JNum := none
  rounding : Option String := none
  policyNotes : Option String := none
deriving DecidableEq, Repr

/-- Question as it arrives from the caller (`QuestionSpec` input shape);
`marks` may hold a number or a string, the normalizer coerces it. -/
structure QuestionIn where
  qNo : Option JVal := none
  marks : Option JVal := none
  notes : Option String := none
  policy : Option PolicyIn := none
deriving DecidableEq, Repr

/-- Rubric as it arrives from the caller.  `questions := none` models a
missing or non-array `questions` field (the source checks `Array.isArray`).
`totalMarks` is carried so that independence of the output from a
caller-supplied total can be stated; the normalizer never reads it. -/
structure RubricIn where
  version : Option JNum := none
  numQuestions : Option JNum := none
  totalMarks : Option JNum := none
  questions : Option (List QuestionIn) := none
deriving DecidableEq, Repr

/-- Fully populated output policy. -/
structure MarkingPolicy where
  allowPartialCredit : Bool
  requiresFinalAnswer : Bool
  methodWeight : JNum
  rounding : String
  policyNotes : String
deriving DecidableEq, Repr

/-- Fully populated output question. -/
structure QuestionItem where
  qNo : Nat
  marks : JNum
  notes : String
  policy : MarkingPolicy
deriving DecidableEq, Repr

/-- Normalized rubric, the output shape of `normalizeRubric`. -/
structure NormalizedRubric where
  version : Nat
  totalQuestions : Nat
  totalMarks : JNum
  questions : List QuestionItem
deriving DecidableEq, Repr

/-- Substitute for a missing `questions[idx]`:
`{ marks: 0, notes: "", policy: undefined }`. -/
def defaultQuestionSrc : QuestionIn :=
  { qNo := none, marks := some (.num (JNum.ofInt 0)), notes := some "", policy := none }

/-- Whole-object policy default used when `src.policy` is absent. -/
def defaultPolicySrc : PolicyIn :=
  { allowPartialCredit := some true, requiresFinalAnswer := some false,
    methodWeight := some (JNum.ofInt 70), rounding := some "none", policyNotes := some "" }

/-- Body of the map inside `normalizeRubric`: builds output question `idx`
from `questions[idx] || defaultQuestionSrc`, with
`policy = src.policy || defaultPolicySrc` and the field coercions
`!!`, `Number(x) || 0`, `x || "none"`, `x || ""` of the source. -/
def normQuestionAt (qs : List QuestionIn) (idx : Nat) : QuestionItem :=
  let src := (qs.get? idx).getD defaultQuestionSrc
  let pol := src.policy.getD defaultPolicySrc
  { qNo := idx + 1
    marks :=
      match src.marks with
      | none => JNum.ofInt 0
      | some v => jsCoerceNum v
    notes := jsStrOr src.notes ""
    policy :=
      { allowPartialCredit := pol.allowPartialCredit.getD false
        requiresFinalAnswer := pol.requiresFinalAnswer.getD false
        methodWeight := jsNumOr pol.methodWeight (JNum.ofInt 0)
        rounding := jsStrOr pol.rounding "none"
        policyNotes := jsStrOr pol.policyNotes "" } }

/-- The normalizer `normalizeRubric` of `ensureRubricIndex.ts`:
`totalQuestions = Math.max(0, Math.floor(rubric.numQuestions || questions.length))`,
a fixed-length map assigning sequential `qNo`, and `totalMarks` recomputed as
the fold of the output marks. -/
def normalizeRubric (r : RubricIn) : NormalizedRubric :=
  let questions := r.questions.getD []
  let totalQuestions : Nat :=
    (JNum.floor (jsNumOr r.numQuestions (JNum.ofNat questions.length))).toNat
  let normalizedQuestions := (List.range totalQuestions).map (normQuestionAt questions)
  { version := 1
    totalQuestions := totalQuestions
    totalMarks := normalizedQuestions.foldl (fun s q => JNum.add s q.marks) (JNum.ofInt 0)
    questions := normalizedQuestions }

/-- Claimed formula for `totalQuestions` as the specification words it:
`max(0, floor(numQuestions ?? length(questions)))`, null-coalescing
semantics in which a declared `numQuestions` of `0` is used as `0`. -/
def claimTotalQuestions (nq : Option JNum) (len : Nat) : Nat :=
  match nq with
  | some q => (JNum.floor q).toNat
  | none => len

/-- Amended formula for `totalQuestions`: the source uses `||`, so a declared
`numQuestions` that is `0` (or absent) falls back to the length of the
questions array; otherwise `max(0, floor(numQuestions))`. -/
def amendedTotalQuestions (nq : Option JNum) (len : Nat) : Nat :=
  match nq with
  | some q => if q.isZero then len else (JNum.floor q).toNat
  | none => len

/-!
Prompt builder, from `frontend/lib/grading/buildGradingPrompt.ts`.  The
rubric argument is duck-typed in the source (raw or normalized); the model
carries the union of the fields the builder probes.
-/

/-- Fractional decimal digits of a rational in `[0,1)`, most significant
first, with fuel; expansions longer than the fuel are truncated (no value
rendered by the modelled prompts needs more). -/
def fracDigitChars : Nat → JNum → List Char
  | 0, _ => []
  | fuel + 1, x =>
      if x.isZero then []
      else
        let d := (JNum.floor (JNum.mul x (JNum.ofInt 10))).toNat
        Char.ofNat (48 + d) :: fracDigitChars fuel (JNum.sub (JNum.mul x (JNum.ofInt 10)) (JNum.ofNat d))

/-- Decimal rendering of a non-negative rational, as JavaScript renders the
numbers that appear in prompts (integers and short decimals). -/
def jsNumToStringNonneg (x : JNum) : String :=
  let ip := (JNum.floor x).toNat
  let ds := fracDigitChars 30 (JNum.sub x (JNum.ofNat ip))
  if ds = [] then toString ip else toString ip ++ "." ++ String.mk ds

/-- Decimal rendering of a rational, as JavaScript template literals render
a number. -/
def jsNumToString (x : JNum) : String :=
  if x.num < 0 then "-" ++ jsNumToStringNonneg ⟨-x.num, x.den⟩ else jsNumToStringNonneg x

/-- Rendering of a boolean in a template literal. -/
def jsBoolToString (b : Bool) : String := if b then "true" else "false"

/-- Rendering of a possibly `undefined` number in a template literal. -/
def jsOptNumToString (v : Option JNum) : String :=
  match v with
  | some q => jsNumToString q
  | none => "undefined"

/-- Question as probed by the prompt builder (raw or normalized shape). -/
structure PromptQuestion where
  qNo : Option JNum := none
  marks : Option JNum := none
  notes : Option String := none
  policy : Option MarkingPolicy := none
deriving DecidableEq, Repr

/-- Rubric as probed by the prompt builder: `totalQuestions` when present
(normalized shape), else `numQuestions` (raw shape), else the array length. -/
structure PromptRubric where
  version : Option JNum := none
  totalQuestions : Option JNum := none
  numQuestions : Option JNum := none
  questions : Option (List PromptQuestion) := none
deriving DecidableEq, Repr

/-- The `formatPolicy` helper of `buildGradingPrompt.ts`: empty string when
the question has no policy, otherwise the one-line rendering with the
trailing `, notes=` fragment only for a truthy `policyNotes`. -/
def formatPolicy (q : PromptQuestion) : String :=
  match q.policy with
  | none => ""
  | some p =>
      "Policy: allowsPartial=" ++ jsBoolToString p.allowPartialCredit
        ++ ", requiresFinal=" ++ jsBoolToString p.requiresFinalAnswer
        ++ ", methodWeight=" ++ jsNumToString p.methodWeight
        ++ "%, rounding=" ++ p.rounding
        ++ (if p.policyNotes = "" then "" else ", notes=" ++ p.policyNotes)

/-- Per-question prompt lines: `Q<qNo>: max marks <marks>. Notes: <notes>`
with `qNo = q.qNo ?? idx + 1`, followed by an indented policy line exactly
when `formatPolicy` is non-empty. -/
def promptQuestionParts (qs : List PromptQuestion) : List String :=
  (qs.enum.map (fun p =>
    let qNo : JNum := p.2.qNo.getD (JNum.ofNat (p.1 + 1))
    let line := "Q" ++ jsNumToString qNo ++ ": max marks " ++ jsOptNumToString p.2.marks
      ++ ". Notes: " ++ jsStrOr p.2.notes ""
    let ptext := formatPolicy p.2
    line :: (if ptext = "" then [] else ["  " ++ ptext]))).flatten

/-- Rubric block of the prompt: version line (`rubric.version ?? 1`),
total-questions line (`totalQuestions ?? numQuestions ?? questions.length`),
the `Questions:` header and the per-question lines; empty when no rubric is
passed. -/
def rubricParts (r : Option PromptRubric) : List String :=
  match r with
  | none => []
  | some rr =>
      let questionsArr := rr.questions.getD []
      let tq : JNum :=
        (rr.totalQuestions.orElse (fun _ => rr.numQuestions)).getD
          (JNum.ofNat questionsArr.length)
      ("Rubric Version: " ++ jsNumToString (rr.version.getD (JNum.ofInt 1)))
        :: ("Total Questions: " ++ jsNumToString tq)
        :: "Questions:"
        :: promptQuestionParts questionsArr

/-- Fixed first prompt line. -/
def introPart : String :=
  "You are an exam grader. Use the rubric and marking policy to score each question."

/-- Fixed trailing instruction block of the prompt. -/
def instructionsPart : String :=
  "Instructions:\n- For each question, return JSON with qNo, score, max, breakdown:\x7bmethod,final\x7d, confidence (0-1), needsReview (true/false), rationale string.\n- Use the policy for weighting and rounding as specified.\n- Return ONLY a single JSON object with a top-level \x27questions\x27 array."

/-- The ordered `parts` array built by `buildGradingPrompt`: intro, rubric
block, answer-key block (`if (ctx) ... else if (ctx === undefined) ...`),
student block with the same shape, instructions. -/
def buildGradingPromptParts (rubric : Option PromptRubric)
    (answerKeyContext studentContext : Option String) : List String :=
  let parts := introPart :: rubricParts rubric
  let parts := parts ++
    (match answerKeyContext with
     | some t => if t = "" then [] else ["Answer Key Context:", t]
     | none => ["Answer Key Context: <not provided>"])
  let parts := parts ++
    (match studentContext with
     | some t => if t = "" then [] else ["Student Context:", t]
     | none => ["Student Context: <not provided>"])
  parts ++ [instructionsPart]

/-- The prompt builder `buildGradingPrompt`: the parts joined by blank
lines. -/
def buildGradingPrompt (rubric : Option PromptRubric)
    (answerKeyContext studentContext : Option String) : String :=
  String.intercalate "\n\n" (buildGradingPromptParts rubric answerKeyContext studentContext)

/-!
Score reconciler, from the student grading report component:
`safePercent`, `parseScore` (with its regular expression
`([0-9]*\.?[0-9]+)\s*\/\s*([0-9]*\.?[0-9]+)`), `needsReview` and
`getSubmissionScore`.
-/

/-- Length of the leading run of decimal digits. -/
def digitRunLen (cs : List Char) : Nat := (cs.takeWhile isDigitChar).length

/-- Candidate lengths, in JavaScript backtracking order (greedy first), of a
match of `[0-9]*\.?[0-9]+` starting at the head of `cs`: with a dot after
the digit run the totals `r+1+r2 … r+2`, then the dot-free totals `r … 1`. -/
def numCandLens (cs : List Char) : List Nat :=
  let r := digitRunLen cs
  let dotPart : List Nat :=
    match cs.drop r with
    | '.' :: t2 =>
        let r2 := digitRunLen t2
        (List.range r2).map (fun j => r + 1 + (r2 - j))
    | _ => []
  dotPart ++ (List.range r).map (fun j => r - j)

/-- Greedy match of the second `[0-9]*\.?[0-9]+` group (no backtracking is
needed: the pattern ends after it); returns the captured characters. -/
def matchSecondNum (cs : List Char) : Option (List Char) :=
  let r := digitRunLen cs
  if r > 0 then
    match cs.drop r with
    | '.' :: t2 =>
        let r2 := digitRunLen t2
        if r2 > 0 then some (cs.take (r + 1 + r2)) else some (cs.take r)
    | _ => some (cs.take r)
  else
    match cs with
    | '.' :: t2 =>
        let r2 := digitRunLen t2
        if r2 > 0 then some (cs.take (1 + r2)) else none
    | _ => none

/-- Match of the whole pattern anchored at the head of `cs`: first group
candidates in backtracking order, then `\s*`, `/`, `\s*`, second group.
Returns the two captured groups. -/
def matchAt (cs : List Char) : Option (List Char × List Char) :=
  (numCandLens cs).findSome? (fun len =>
    let rest := (cs.drop len).dropWhile isSpaceChar
    match rest with
    | '/' :: r2 => (matchSecondNum (r2.dropWhile isSpaceChar)).map (fun g2 => (cs.take len, g2))
    | _ => none)

/-- Leftmost match of the pattern in the character list, as
`String.prototype.match` finds it. -/
def scanMatch : List Char → Option (List Char × List Char)
  | [] => none
  | c :: t =>
      match matchAt (c :: t) with
      | some r => some r
      | none => scanMatch t

/-- Oracle-output question record as the reconciler reads it.  `max` is part
of the output shape the prompt requests but is never read by `parseScore`;
it is carried to state that. -/
structure GradedQuestion where
  marks_obtained : Option JVal := none
  max_marks : Option JVal := none
  score_text : Option JVal := none
  score : Option JVal := none
  scoreText : Option JVal := none
  max : Option JVal := none
deriving DecidableEq, Repr

/-- JavaScript `a || b` over possibly absent number-or-string values, the
value-preserving form used in `score_text || score || scoreText || null`. -/
def jsValOr (a b : Option JVal) : Option JVal := if jvalTruthy a then a else b

/-- The reconciler `parseScore`: direct numeric fields first
(`marks_obtained`, `max_marks`, each `Number(x) || 0` when present and
non-null), then—only if a side is still unset—the first truthy free-text
field among `score_text`, `score`, `scoreText`, provided it is a string,
matched against the score pattern; a match fills only the still-missing
sides. -/
def parseScore (q : GradedQuestion) : Option JNum × Option JNum :=
  let earned0 : Option JNum := q.marks_obtained.map jsCoerceNum
  let max0 : Option JNum := q.max_marks.map jsCoerceNum
  let stv : Option JVal := jsValOr q.score_text (jsValOr q.score (jsValOr q.scoreText none))
  if earned0.isNone || max0.isNone then
    match stv with
    | some (.str s) =>
        match scanMatch s.data with
        | some (g1, g2) =>
            (match earned0 with
             | none => some (jsCoerceNum (.str (String.mk g1)))
             | some e => some e,
             match max0 with
             | none => some (jsCoerceNum (.str (String.mk g2)))
             | some m => some m)
        | none => (earned0, max0)
    | _ => (earned0, max0)
  else (earned0, max0)

/-- The reconciler `safePercent`: `null` when the denominator is falsy
(absent or zero), otherwise `(Number(num) || 0) / den * 100` rounded to one
decimal place via `Math.round(pct * 10) / 10`.  The source's
`Number.isFinite` re-check cannot fire over exact rationals and the inner
`d === 0` re-check is unreachable, both as in the source. -/
def safePercent (numerator denominator : Option JNum) : Option JNum :=
  match denominator with
  | none => none
  | some d =>
      if d.isZero then none
      else
        let n := jsNumOr numerator (JNum.ofInt 0)
        if d.isZero then none
        else
          let pct := JNum.mul (JNum.div n d) (JNum.ofInt 100)
          some (JNum.div (JNum.ofInt (jsRound (JNum.mul pct (JNum.ofInt 10)))) (JNum.ofInt 10))

/-- The reconciler `needsReview`: true when the percentage is determinate
and below 50, or when `(earned ?? 0) === 0`; false otherwise. -/
def needsReview (earned max : Option JNum) : Bool :=
  match safePercent earned max with
  | some p => if JNum.blt p (JNum.ofInt 50) then true else (earned.getD (JNum.ofInt 0)).isZero
  | none => (earned.getD (JNum.ofInt 0)).isZero

/-- Per-question record as the submission-level aggregation reads it (the
`Submission` type of the results page types these fields as numbers). -/
structure AggQuestion where
  marks_obtained : Option JNum := none
  max_marks : Option JNum := none
deriving DecidableEq, Repr

/-- Submission as the aggregation reads it: `results := none` models a
missing `grade_json` or `results`. -/
structure Submission where
  total_score : Option JNum := none
  results : Option (List AggQuestion) := none
deriving DecidableEq, Repr

/-- Result triple of `getSubmissionScore`. -/
structure SubmissionScore where
  obtained : JNum
  maxScore : JNum
  pct : JNum
deriving DecidableEq, Repr

/-- The dashboard aggregation `getSubmissionScore`:
`maxScore = sum(q.max_marks || 0)`,
`obtained = total_score || sum(q.marks_obtained || 0)`,
`pct = maxScore > 0 ? obtained / maxScore * 100 : 0`. -/
def getSubmissionScore (sub : Submission) : SubmissionScore :=
  let questions := sub.results.getD []
  let maxScore := questions.foldl (fun s q => JNum.add s (jsNumOr q.max_marks (JNum.ofInt 0))) (JNum.ofInt 0)
  let obtained := jsNumOr sub.total_score
    (questions.foldl (fun s q => JNum.add s (jsNumOr q.marks_obtained (JNum.ofInt 0))) (JNum.ofInt 0))
  let pct := if JNum.blt (JNum.ofInt 0) maxScore
    then JNum.mul (JNum.div obtained maxScore) (JNum.ofInt 100)
    else JNum.ofInt 0
  { obtained := obtained, maxScore := maxScore, pct := pct }

/-- Claimed formula for `obtained` as the specification words it:
`submission.total_score ?? sum`, null-coalescing semantics in which a stored
total of `0` is kept as `0`. -/
def claimObtained (ts : Option JNum) (sumMarks : JNum) : JNum := ts.getD sumMarks

/-- Amended formula for `obtained`: the source uses `||`, so a stored total
that is `0` (or absent) falls back to the recomputed sum. -/
def amendedObtained (ts : Option JNum) (sumMarks : JNum) : JNum := jsNumOr ts sumMarks

/-!
Concrete inputs used by counterexamples and witnesses.
-/

/-- Question carrying a policy whose `methodWeight` is 150, outside the
claimed `[0,100]` range. -/
def qC1 : QuestionIn :=
  { marks := some (.num (JNum.ofInt 1)), policy := some { methodWeight := some (JNum.ofInt 150) } }

/-- Rubric containing `qC1`. -/
def rC1 : RubricIn := { questions := some [qC1] }

/-- Rubric declaring `numQuestions = 0` over a two-question array. -/
def rC2 : RubricIn :=
  { numQuestions := some (JNum.ofInt 0),
    questions := some [{ marks := some (.num (JNum.ofInt 1)) }, { marks := some (.num (JNum.ofInt 1)) }] }

/-- Question whose policy object contains only `policyNotes`. -/
def qC3 : QuestionIn :=
  { marks := some (.num (JNum.ofInt 2)), policy := some { policyNotes := some "x" } }

/-- Rubric containing `qC3`. -/
def rC3 : RubricIn := { questions := some [qC3] }

/-- Submission with a stored total of `0` and one question worth 5 of 10. -/
def subC5 : Submission :=
  { total_score := some (JNum.ofInt 0),
    results := some [{ marks_obtained := some (JNum.ofInt 5), max_marks := some (JNum.ofInt 10) }] }

/-- Submission with no stored total and one question worth 3 of 10. -/
def subW : Submission :=
  { results := some [{ marks_obtained := some (JNum.ofInt 3), max_marks := some (JNum.ofInt 10) }] }

/-- Element `i` of the normalized question list is the normalization of
source slot `i`. -/
theorem normalizeRubric_get (r : RubricIn) (i : Nat)
    (h : i < (normalizeRubric r).totalQuestions) :
    (normalizeRubric r).questions.get? i
      = some (normQuestionAt (r.questions.getD []) i) := by
  have h' : i < (JNum.floor (jsNumOr r.numQuestions (JNum.ofNat (r.questions.getD []).length))).toNat := h
  simp only [normalizeRubric, List.get?_map, List.get?_range h', Option.map_some']

/-!
Claim C6 — shape invariants of the normalizer.
-/

/-- C6: for every rubric input, the normalized `totalQuestions` equals the
length of the output question list, the output `qNo`s are sequential from 1
with no gaps (never trusting an incoming `qNo`), and `totalMarks` is exactly
the recomputed fold of the output marks — independent of any caller-supplied
`totalMarks`. -/
theorem normalizeRubric_shape (r : RubricIn) :
    (normalizeRubric r).totalQuestions = (normalizeRubric r).questions.length
    ∧ (normalizeRubric r).questions.map (fun q => q.qNo)
        = (List.range (normalizeRubric r).questions.length).map (fun i => i + 1)
    ∧ (normalizeRubric r).totalMarks
        = (normalizeRubric r).questions.foldl (fun s q => JNum.add s q.marks) (JNum.ofInt 0)
    ∧ ∀ t, normalizeRubric { r with totalMarks := t } = normalizeRubric r := by
  refine ⟨?_, ?_, rfl, fun t => rfl⟩
  · simp [normalizeRubric]
  · simp only [normalizeRubric, List.map_map, List.length_map, List.length_range]
    exact List.map_congr_left (fun a _ => rfl)

/-!
Claim C2 — the `totalQuestions` formula.
-/

/-- C2 counterexample: on a rubric declaring `numQuestions = 0` over two
questions, the code produces `totalQuestions = 2` while the claimed
null-coalescing formula produces `0`: a declared `numQuestions` of `0` is
not used, contrary to the claim. -/
theorem normalizeRubric_totalQuestions_cex :
    (normalizeRubric rC2).totalQuestions = 2
    ∧ claimTotalQuestions rC2.numQuestions ((rC2.questions.getD []).length) = 0
    ∧ (normalizeRubric rC2).totalQuestions
        ≠ claimTotalQuestions rC2.numQuestions ((rC2.questions.getD []).length) := by
  decide

/-- C2 amended: `totalQuestions = max(0, floor(numQuestions || questions.length))`
with JavaScript `||`: a declared `numQuestions` of `0` (or absent) falls
back to the length of the questions array; a present non-zero declaration is
floored and clamped below by 0. -/
theorem normalizeRubric_totalQuestions_spec (r : RubricIn) :
    (normalizeRubric r).totalQuestions
      = amendedTotalQuestions r.numQuestions ((r.questions.getD []).length) := by
  simp only [normalizeRubric, amendedTotalQuestions, jsNumOr]
  cases r.numQuestions with
  | none => simp [JNum.floor, JNum.ofNat]
  | some q =>
      by_cases hz : q.isZero
      · simp [hz, JNum.floor, JNum.ofNat]
      · simp [hz]

/-!
Claim C1 — the `methodWeight` range.
-/

/-- C1 counterexample: the normalizer passes an out-of-range `methodWeight`
of 150 through unchanged — the output is not within `[0,100]`, so no min/max
clamp is applied. -/
theorem normalizeRubric_methodWeight_cex :
    ((normalizeRubric rC1).questions.map (fun q => q.policy.methodWeight)) = [JNum.ofInt 150]
    ∧ JNum.blt (JNum.ofInt 100) (JNum.ofInt 150) = true := by
  decide

/-- C1 amended: the normalizer only coerces `methodWeight` numerically
(`Number(x) || 0`, yielding the source value unchanged, even outside
`[0,100]`, and `0` when the field is missing) and substitutes 70 when the
whole policy object is absent; no min/max clamp is applied. -/
theorem normalizeRubric_methodWeight_passthrough (r : RubricIn) (i : Nat) (q : QuestionIn)
    (hq : (r.questions.getD []).get? i = some q)
    (hi : i < (normalizeRubric r).totalQuestions) :
    ((normalizeRubric r).questions.get? i).map (fun qq => qq.policy.methodWeight)
      = some (match q.policy with
              | some p => jsNumOr p.methodWeight (JNum.ofInt 0)
              | none => JNum.ofInt 70) := by
  rw [normalizeRubric_get r i hi]
  simp only [normQuestionAt, hq, Option.getD_some, Option.map_some']
  cases q.policy with
  | none => rfl
  | some p => rfl

/-- C1 witness: at the concrete rubric `rC1` the hypotheses hold and the
amended theorem yields the out-of-range value 150. -/
theorem normalizeRubric_methodWeight_passthrough_witness :
    (rC1.questions.getD []).get? 0 = some qC1
    ∧ 0 < (normalizeRubric rC1).totalQuestions
    ∧ ((normalizeRubric rC1).questions.get? 0).map (fun qq => qq.policy.methodWeight)
        = some (JNum.ofInt 150) :=
  ⟨by decide, by decide,
    normalizeRubric_methodWeight_passthrough rC1 0 qC1 (by decide) (by decide)⟩

/-!
Claim C3 — policy field defaulting.
-/

/-- C3 counterexample: a policy object containing only `policyNotes` yields
`allowPartialCredit = false` and `methodWeight = 0` in the output, not the
claimed independent defaults `true` and `70`. -/
theorem normalizeRubric_policyDefaults_cex :
    ((normalizeRubric rC3).questions.map (fun q => q.policy))
      = [{ allowPartialCredit := false, requiresFinalAnswer := false,
           methodWeight := JNum.ofInt 0, rounding := "none", policyNotes := "x" }]
    ∧ (false ≠ true) ∧ (JNum.ofInt 0 ≠ JNum.ofInt 70) := by
  decide

/-- C3 amended: the documented defaults are applied only as a whole object,
when `policy` is absent; when a policy object is present but partially
populated, each missing field falls to its falsy coercion instead —
`allowPartialCredit = !!undefined = false`, `requiresFinalAnswer = false`,
`methodWeight = Number(undefined) || 0 = 0`, while `rounding` and
`policyNotes` do default to `"none"` and `""` via `||`. -/
theorem normalizeRubric_policy_fields (r : RubricIn) (i : Nat) (q : QuestionIn)
    (hq : (r.questions.getD []).get? i = some q)
    (hi : i < (normalizeRubric r).totalQuestions) :
    ((normalizeRubric r).questions.get? i).map (fun qq => qq.policy)
      = some (match q.policy with
              | none =>
                  { allowPartialCredit := true, requiresFinalAnswer := false,
                    methodWeight := JNum.ofInt 70, rounding := "none", policyNotes := "" }
              | some p =>
                  { allowPartialCredit := p.allowPartialCredit.getD false,
                    requiresFinalAnswer := p.requiresFinalAnswer.getD false,
                    methodWeight := jsNumOr p.methodWeight (JNum.ofInt 0),
                    rounding := jsStrOr p.rounding "none",
                    policyNotes := jsStrOr p.policyNotes "" }) := by
  rw [normalizeRubric_get r i hi]
  simp only [normQuestionAt, hq, Option.getD_some, Option.map_some']
  cases q.policy with
  | none => rfl
  | some p => rfl

/-- C3 witness: at the concrete rubric `rC3` the hypotheses hold and the
amended theorem yields the falsy-coerced field values. -/
theorem normalizeRubric_policy_fields_witness :
    (rC3.questions.getD []).get? 0 = some qC3
    ∧ 0 < (normalizeRubric rC3).totalQuestions
    ∧ ((normalizeRubric rC3).questions.get? 0).map (fun qq => qq.policy)
        = some { allowPartialCredit := false, requiresFinalAnswer := false,
                 methodWeight := JNum.ofInt 0, rounding := "none", policyNotes := "x" } :=
  ⟨by decide, by decide,
    normalizeRubric_policy_fields rC3 0 qC3 (by decide) (by decide)⟩

/-!
Claim C4 — empty-string versus undefined context sections.
-/

set_option maxRecDepth 10000

/-- C4 counterexample: with `answerKeyContext = ""` the builder emits no
answer-key section at all — neither the verbatim empty string, nor the
section header, nor the placeholder appear among the prompt parts — while
with `undefined` the placeholder part is emitted. -/
theorem buildGradingPrompt_emptyString_cex :
    ("" ∉ buildGradingPromptParts none (some "") none)
    ∧ ("Answer Key Context:" ∉ buildGradingPromptParts none (some "") none)
    ∧ ("Answer Key Context: <not provided>" ∉ buildGradingPromptParts none (some "") none)
    ∧ ("Answer Key Context: <not provided>" ∈ buildGradingPromptParts none none none) := by
  decide

/-- C4 amended: an empty-string context emits nothing (the whole section,
header included, is skipped — the empty string is not passed through);
`undefined` emits the `<not provided>` placeholder line; a non-empty string
emits the section header followed by the verbatim text; `studentContext`
behaves identically.  Concretely, the prompt for no rubric, empty answer-key
context and undefined student context consists of the intro, the student
placeholder and the instructions only. -/
theorem buildGradingPrompt_context_sections (r : Option PromptRubric) (ak sc : Option String) :
    buildGradingPromptParts r ak sc
      = introPart ::
          (rubricParts r
            ++ (match ak with
                | some t => if t = "" then [] else ["Answer Key Context:", t]
                | none => ["Answer Key Context: <not provided>"])
            ++ (match sc with
                | some t => if t = "" then [] else ["Student Context:", t]
                | none => ["Student Context: <not provided>"])
            ++ [instructionsPart])
    ∧ buildGradingPrompt none (some "") none
        = introPart ++ "\n\n" ++ "Student Context: <not provided>" ++ "\n\n" ++ instructionsPart := by
  refine ⟨?_, by decide⟩
  simp [buildGradingPromptParts]

/-!
Claim C5 — submission-level aggregation.
-/

/-- C5 counterexample: with a stored `total_score` of `0` and one question
with `marks_obtained = 5`, the code computes `obtained = 5` (the falsy
stored total falls through to the recomputed sum) while the claimed
null-coalescing formula keeps the stored `0`. -/
theorem getSubmissionScore_total_cex :
    (getSubmissionScore subC5).obtained = JNum.ofInt 5
    ∧ claimObtained subC5.total_score
        ((subC5.results.getD []).foldl
          (fun s q => JNum.add s (jsNumOr q.marks_obtained (JNum.ofInt 0))) (JNum.ofInt 0))
        = JNum.ofInt 0
    ∧ (getSubmissionScore subC5).obtained
        ≠ claimObtained subC5.total_score
            ((subC5.results.getD []).foldl
              (fun s q => JNum.add s (jsNumOr q.marks_obtained (JNum.ofInt 0))) (JNum.ofInt 0)) := by
  decide

/-- C5 amended: `obtained = total_score || sum(marks_obtained || 0)` with
JavaScript `||`: the stored total is used only when present and non-zero,
and a stored total of `0` (like a missing one) falls back to the recomputed
sum; the percentage part of the claim holds as stated —
`obtained / maxScore * 100` when `maxScore > 0` and the number `0` (not
null) otherwise. -/
theorem getSubmissionScore_spec (sub : Submission) :
    (getSubmissionScore sub).obtained
      = amendedObtained sub.total_score
          ((sub.results.getD []).foldl
            (fun s q => JNum.add s (jsNumOr q.marks_obtained (JNum.ofInt 0))) (JNum.ofInt 0))
    ∧ (getSubmissionScore sub).maxScore
      = (sub.results.getD []).foldl
          (fun s q => JNum.add s (jsNumOr q.max_marks (JNum.ofInt 0))) (JNum.ofInt 0)
    ∧ (JNum.blt (JNum.ofInt 0) (getSubmissionScore sub).maxScore = true →
        (getSubmissionScore sub).pct
          = JNum.mul (JNum.div (getSubmissionScore sub).obtained (getSubmissionScore sub).maxScore)
              (JNum.ofInt 100))
    ∧ (JNum.blt (JNum.ofInt 0) (getSubmissionScore sub).maxScore = false →
        (getSubmissionScore sub).pct = JNum.ofInt 0) := by
  refine ⟨rfl, rfl, ?_, ?_⟩
  · intro h
    simp only [getSubmissionScore] at h ⊢
    rw [if_pos h]
  · intro h
    simp only [getSubmissionScore] at h ⊢
    rw [if_neg (by simp [h])]

/-- C5 witness: at the concrete submission `subW` the positive-denominator
hypothesis holds and the amended theorem gives the percentage formula. -/
theorem getSubmissionScore_spec_witness :
    JNum.blt (JNum.ofInt 0) (getSubmissionScore subW).maxScore = true
    ∧ (getSubmissionScore subW).pct
        = JNum.mul (JNum.div (getSubmissionScore subW).obtained (getSubmissionScore subW).maxScore)
            (JNum.ofInt 100) :=
  ⟨by decide, (getSubmissionScore_spec subW).2.2.1 (by decide)⟩

/-!
Claim C7 — `parseScore` extraction priority.
-/

/-- Absent values are falsy. -/
@[simp] theorem jvalTruthy_none : jvalTruthy none = false := rfl

/-- C8: `safePercent` returns null for every numerator whenever the
denominator is falsy (absent or any representation of zero; over exact
rationals a non-finite ratio cannot arise, so the source's finiteness
re-check never fires), and otherwise returns
`(numerator || 0) / denominator * 100` rounded to one decimal place as
`Math.round(pct * 10) / 10`; concretely `safePercent 50 200 = 25` and
`safePercent 1 3 = 33.3`. -/
theorem safePercent_spec (numerator denominator : Option JNum) :
    (denominator = none → safePercent numerator denominator = none)
    ∧ (∀ d, denominator = some d → d.isZero = true →
        safePercent numerator denominator = none)
    ∧ (∀ d, denominator = some d → d.isZero = false →
        safePercent numerator denominator
          = some (JNum.div
              (JNum.ofInt (jsRound (JNum.mul
                (JNum.mul (JNum.div (jsNumOr numerator (JNum.ofInt 0)) d) (JNum.ofInt 100))
                (JNum.ofInt 10))))
              (JNum.ofInt 10)))
    ∧ safePercent (some (JNum.ofInt 50)) (some (JNum.ofInt 200)) = some (JNum.ofInt 25)
    ∧ safePercent (some (JNum.ofInt 1)) (some (JNum.ofInt 3)) = some (JNum.mk' 333 10) := by
  refine ⟨?_, ?_, ?_, by decide, by decide⟩
  · intro h
    rw [h]
    rfl
  · intro d hd hz
    rw [hd]
    simp [safePercent, hz]
  · intro d hd hz
    rw [hd]
    simp [safePercent, hz]

/-- C8 witness: at numerator 50 and denominator 200 the non-zero hypothesis
holds and the theorem gives the rounded-ratio form. -/
theorem safePercent_spec_witness :
    (JNum.ofInt 200).isZero = false
    ∧ safePercent (some (JNum.ofInt 50)) (some (JNum.ofInt 200))
        = some (JNum.div
            (JNum.ofInt (jsRound (JNum.mul
              (JNum.mul (JNum.div (jsNumOr (some (JNum.ofInt 50)) (JNum.ofInt 0)) (JNum.ofInt 200))
                (JNum.ofInt 100))
              (JNum.ofInt 10))))
            (JNum.ofInt 10)) :=
  ⟨by decide,
    (safePercent_spec (some (JNum.ofInt 50)) (some (JNum.ofInt 200))).2.2.1
      (JNum.ofInt 200) rfl (by decide)⟩

/-!
Claim C9 — `needsReview`.
-/

/-- C9: `needsReview earned max` is true exactly when the safe percentage is
determinate and below 50, or `(earned ?? 0) === 0`; false in every other
case, including an indeterminate percentage with non-zero earned.
Concretely `needsReview null null = true` and `needsReview 6 10 = false`. -/
theorem needsReview_spec (earned max : Option JNum) :
    (needsReview earned max = true ↔
      (∃ p, safePercent earned max = some p ∧ JNum.blt p (JNum.ofInt 50) = true)
      ∨ (earned.getD (JNum.ofInt 0)).isZero = true)
    ∧ needsReview none none = true
    ∧ needsReview (some (JNum.ofInt 6)) (some (JNum.ofInt 10)) = false := by
  refine ⟨?_, by decide, by decide⟩
  cases hp : safePercent earned max with
  | none => simp [needsReview, hp]
  | some p =>
      by_cases hb : JNum.blt p (JNum.ofInt 50) = true
      · simp [needsReview, hp, hb]
      · simp only [needsReview, hp, Bool.not_eq_true] at hb ⊢
        rw [hb]
        simp [hb]

/-!
Claim C10 — numeric `score`/`max` fields are ignored.
-/

/-- C10: a question that follows the prompt's own requested output shape — a
numeric `score` and a numeric `max`, with no `marks_obtained`, `max_marks`
or string score text — parses to `earned = null, max = null` (the `score`
field is only consulted when it holds a matching string, and `max` is never
read), and is therefore classified as needing review via the zero-or-missing
earned rule. -/
theorem parseScore_numeric_score_ignored (x y : JNum) :
    parseScore { score := some (.num x), max := some (.num y) } = (none, none)
    ∧ needsReview (parseScore { score := some (.num x), max := some (.num y) }).1
        (parseScore { score := some (.num x), max := some (.num y) }).2 = true := by
  have h : parseScore { score := some (.num x), max := some (.num y) } = (none, none) := by
    simp only [parseScore, jsValOr, jvalTruthy]
    cases hx : x.isZero <;> simp
  refine ⟨h, ?_⟩
  rw [h]
  decide
